import Mathlib

/-!
Shallow embedding of `src/backend/ai_endurance_coach.py` (the daily-plan
rule engine). Python floats are modelled as exact rationals; the builtin
`round` (round half to even) is modelled by `pyRound`.
Python truthiness of optional integers (`not x`, `x or d`, `if a and b`)
is modelled explicitly on `Option ℤ` values.
-/

namespace Coach

/-- Floor of a rational, written so that it evaluates by kernel reduction. -/
def ratFloor (q : ℚ) : ℤ := q.num / (q.den : ℤ)

theorem ratFloor_eq_floor (q : ℚ) : ratFloor q = ⌊q⌋ := Rat.floor_def.symm

/-- Python `round(x)`: nearest integer, ties to even. -/
def pyRound (q : ℚ) : ℤ :=
  let f := ratFloor q
  let frac := q - f
  if frac < 1/2 then f
  else if 1/2 < frac then f + 1
  else if f % 2 = 0 then f else f + 1

/-- Python `round(x, 1)`. -/
def pyRound1 (q : ℚ) : ℚ := (pyRound (q * 10) : ℚ) / 10

/-- Python `round(x, 2)`. -/
def pyRound2 (q : ℚ) : ℚ := (pyRound (q * 100) : ℚ) / 100

/-- Embeds `clamp(value, lower, upper)` from the source. -/
def clamp (value lower upper : ℚ) : ℚ := max lower (min upper value)

/-- Python `x or d` on an optional int: `d` when `x` is `None` or `0`. -/
def pyOrInt (x : Option ℤ) (d : ℤ) : ℤ :=
  match x with
  | none => d
  | some v => if v = 0 then d else v

/-- Python truthiness of an optional int: `None` and `0` are falsy. -/
def truthyInt (x : Option ℤ) : Bool :=
  match x with
  | none => false
  | some v => v ≠ 0

-- ----------------------------- Data models ----------------------------- --

structure UserProfile where
  user_id : String
  age : ℤ
  sex : Option String := none
  weight_kg : ℚ
  height_cm : Option ℚ := none
  max_hr : Option ℤ := none
  resting_hr : Option ℤ := none
  training_level : String := "intermediate"
  injury_flag : Bool := false
  goal_event : Option String := none
  goal_time_minutes : Option ℤ := none
  deriving Repr, DecidableEq

structure MacrocycleContext where
  phase : String
  weeks_to_event : ℤ
  goal_event : String
  target_weekly_distance_km : Option ℚ := none
  surface_focus : Option String := none
  deriving Repr, DecidableEq

structure DailyReadinessInputs where
  sleep_hours : ℚ
  sleep_quality : ℤ
  soreness : ℤ
  stress : ℤ
  mental_energy : ℤ
  resting_hr : Option ℤ := none
  hrv_change_ms : Option ℚ := none
  deriving Repr, DecidableEq

structure MicrocycleDayContext where
  day_index : ℤ
  day_name : String
  template : String
  availability_minutes : ℤ
  readiness_inputs : DailyReadinessInputs
  planned_distance_km : Option ℚ := none
  load_history : List ℚ := []
  environment : Option String := none
  deriving Repr, DecidableEq

-- --------------------------- PhysiologyEngine --------------------------- --

/-- The five heart-rate zone bands, each a `(low, high)` bpm pair. -/
structure HRZones where
  Z1 : ℤ × ℤ
  Z2 : ℤ × ℤ
  Z3 : ℤ × ℤ
  Z4 : ℤ × ℤ
  Z5 : ℤ × ℤ
  deriving Repr, DecidableEq

/-- The zone computation of `PhysiologyEngine.heart_rate_zones` after the
precondition check: `rhr = resting_hr or 60`, `reserve = max(max_hr - rhr, 1)`,
band edges `round(rhr + reserve * fraction)`. -/
def hrZonesCore (mhr : ℤ) (resting_hr : Option ℤ) : HRZones :=
  let rhr := pyOrInt resting_hr 60
  let reserve := max (mhr - rhr) 1
  let zone := fun (low high : ℚ) =>
    (pyRound ((rhr : ℚ) + (reserve : ℚ) * low), pyRound ((rhr : ℚ) + (reserve : ℚ) * high))
  { Z1 := zone (55/100) (72/100)
    Z2 := zone (72/100) (82/100)
    Z3 := zone (82/100) (89/100)
    Z4 := zone (89/100) (95/100)
    Z5 := zone (95/100) 1 }

/-- Embeds `PhysiologyEngine.heart_rate_zones`: raises (`Except.error`) exactly when
`not max_hr` holds in Python, i.e. the argument is `None` or `0`. -/
def heart_rate_zones (max_hr : Option ℤ) (resting_hr : Option ℤ) :
    Except String HRZones :=
  if max_hr = none ∨ max_hr = some 0 then
    Except.error "max_hr is required to derive zones"
  else
    Except.ok (hrZonesCore (max_hr.getD 0) resting_hr)

-- ------------------------------ LoadManager ------------------------------ --

/-- Python slice `l[-n:]`. -/
def takeLast (n : ℕ) (l : List ℚ) : List ℚ := l.drop (l.length - n)

/-- Embeds `statistics.mean` on a nonempty list (sum divided by length). -/
def listMean (l : List ℚ) : ℚ := l.sum / (l.length : ℚ)

/-- Embeds `LoadManager.compute_acute_chronic`. -/
def compute_acute_chronic (load_history : List ℚ) : ℚ × ℚ :=
  if load_history = [] then (0, 0)
  else
    let acute_window := takeLast 7 load_history
    let chronic_window :=
      if 28 ≤ load_history.length then takeLast 28 load_history else load_history
    (listMean acute_window, listMean chronic_window)

/-- Result of the ACWR division: a finite rational or the Python float `inf`. -/
inductive AcwrValue where
  | finite (q : ℚ)
  | infinite
  deriving Repr, DecidableEq

/-- Embeds `LoadManager.compute_acwr`. -/
def compute_acwr (acute_load chronic_load : ℚ) : AcwrValue :=
  if chronic_load ≤ 0 then
    if 0 < acute_load then AcwrValue.infinite else AcwrValue.finite 0
  else AcwrValue.finite (acute_load / chronic_load)

/-- Embeds `LoadManager.classify_acwr` on a finite ACWR value. -/
def classify_acwr (acwr : ℚ) : String :=
  if acwr < 8/10 then "underload"
  else if 8/10 ≤ acwr ∧ acwr ≤ 13/10 then "optimal"
  else if 13/10 < acwr ∧ acwr ≤ 15/10 then "elevated"
  else "high"

/-- Embeds `classify_acwr` applied to a possibly infinite ACWR (float `inf` falls
through every threshold comparison to "high"). -/
def classifyAcwrValue (v : AcwrValue) : String :=
  match v with
  | AcwrValue.finite q => classify_acwr q
  | AcwrValue.infinite => "high"

structure LoadReport where
  acute_load : ℚ
  chronic_load : ℚ
  acwr : AcwrValue
  zone : String
  recommendation : String
  deriving Repr, DecidableEq

/-- Embeds `LoadManager.load_report`. -/
def load_report (load_history : List ℚ) : LoadReport :=
  let ac := compute_acute_chronic load_history
  let acwr := compute_acwr ac.1 ac.2
  let zone := classifyAcwrValue acwr
  let recommendation :=
    if zone = "underload" then "Increase load gradually (5-10%) to avoid detraining."
    else if zone = "elevated" then "Hold or slightly reduce load; avoid stacking hard days."
    else if zone = "high" then "Prioritize recovery; cap intensity until ACWR is back in range."
    else "Maintain progressive overload."
  { acute_load := pyRound2 ac.1
    chronic_load := pyRound2 ac.2
    acwr := match acwr with
            | AcwrValue.finite q => AcwrValue.finite (pyRound2 q)
            | AcwrValue.infinite => AcwrValue.infinite
    zone := zone
    recommendation := recommendation }

-- ----------------------------- NutritionEngine ----------------------------- --

structure IntraRule where
  min_minutes : ℚ
  max_minutes : ℚ
  carbs_g_per_hour : ℚ
  fluids : String
  electrolytes_mg_per_l : ℚ
  deriving Repr, DecidableEq

/-- Embeds `INTRA_CARB_RULES`. -/
def INTRA_CARB_RULES : List IntraRule :=
  [ { min_minutes := 0, max_minutes := 59, carbs_g_per_hour := 0,
      fluids := "Water", electrolytes_mg_per_l := 300 },
    { min_minutes := 60, max_minutes := 89, carbs_g_per_hour := 30,
      fluids := "Water + electrolytes", electrolytes_mg_per_l := 400 },
    { min_minutes := 90, max_minutes := 180, carbs_g_per_hour := 60,
      fluids := "Carb mix (glucose/fructose) + electrolytes", electrolytes_mg_per_l := 500 },
    { min_minutes := 181, max_minutes := 300, carbs_g_per_hour := 90,
      fluids := "High-carb mix + electrolytes", electrolytes_mg_per_l := 600 } ]

/-- The rule-selection loop of `_intra_fueling`: start from `INTRA_CARB_RULES[0]`
and take the first rule whose minute band contains the duration. -/
def intraRuleFor (duration : ℚ) : IntraRule :=
  match INTRA_CARB_RULES.find?
      (fun r => decide (r.min_minutes ≤ duration ∧ duration ≤ r.max_minutes)) with
  | some r => r
  | none => { min_minutes := 0, max_minutes := 59, carbs_g_per_hour := 0,
              fluids := "Water", electrolytes_mg_per_l := 300 }

structure IntraPlan where
  carbs_g_per_hour : ℚ
  fluids : String
  electrolytes_mg_per_l : ℚ
  notes : String
  deriving Repr, DecidableEq

/-- Embeds `NutritionEngine._intra_fueling`. -/
def intra_fueling (duration : ℚ) (intensity_zone : String) : IntraPlan :=
  let rule := intraRuleFor duration
  let carbs :=
    if (intensity_zone = "Z4" ∨ intensity_zone = "Z5") ∧ 90 ≤ duration then
      max rule.carbs_g_per_hour 70
    else rule.carbs_g_per_hour
  { carbs_g_per_hour := carbs
    fluids := rule.fluids
    electrolytes_mg_per_l := rule.electrolytes_mg_per_l
    notes := if carbs ≠ 0 then
        "Use glucose+fructose mix for >60 g/h; sip steadily every 10-15 min."
      else "Water as thirst dictates; add electrolytes in heat." }

structure PostPlan where
  protein_g : ℚ
  carbs_g : ℚ
  notes : String
  deriving Repr, DecidableEq

/-- Embeds `NutritionEngine._post_fueling` (`POST_RUN_PROTEIN_G_PER_KG = 0.27`;
carb rates short/medium/long = 0.6/0.8/1.0 g per kg). -/
def post_fueling (duration : ℚ) (weight_kg : ℚ) : PostPlan :=
  let protein := pyRound1 (weight_kg * (27/100))
  let carb_rate : ℚ :=
    if 90 ≤ duration then 1
    else if 46 ≤ duration then 8/10
    else 6/10
  { protein_g := protein
    carbs_g := pyRound1 (weight_kg * carb_rate)
    notes := "Refuel within 60 min with carbs + 20-30 g protein; add a second carb meal if double day." }

structure HydrationPlan where
  fluids_ml_per_hour : String
  sodium_mg_per_l : String
  notes : String
  deriving Repr, DecidableEq

/-- Embeds `NutritionEngine._hydration_guidance`. -/
def hydration_guidance (duration : ℚ) (intensity_zone : String) : HydrationPlan :=
  let needs_electrolytes :=
    60 ≤ duration ∨ intensity_zone = "Z3" ∨ intensity_zone = "Z4" ∨ intensity_zone = "Z5"
  { fluids_ml_per_hour := "500-750"
    sodium_mg_per_l :=
      if needs_electrolytes then "400-800"
      else "Lightly salted foods suffice for short easy days."
    notes := "Use thirst as a guide; adjust upward in heat or humidity." }

structure PrePlan where
  carbs_g : ℚ
  notes : String
  deriving Repr, DecidableEq

structure NutritionPlan where
  pre_run : PrePlan
  intra_run : IntraPlan
  post_run : PostPlan
  hydration : HydrationPlan
  deriving Repr, DecidableEq

/-- Membership of a template in the long-or-hard set used by `build_plan`. -/
def isLongOrHard (template : String) : Bool :=
  template = "Long Run" ∨ template = "Threshold" ∨
  template = "VO2_Intervals" ∨ template = "Double_Threshold"

/-- The session fields `NutritionEngine.build_plan` reads (via `session.get`;
every builder sets all three keys). -/
structure SessionView where
  duration_minutes : ℚ
  template : String
  primary_zone : String
  deriving Repr, DecidableEq

/-- Embeds `NutritionEngine.build_plan` (pre-run carb factors 1.0 for long/hard
templates, 0.5 otherwise). -/
def build_plan (session : SessionView) (user : UserProfile) : NutritionPlan :=
  let duration := session.duration_minutes
  let long_or_hard := isLongOrHard session.template
  let pre_carb_g_per_kg : ℚ := if long_or_hard then 1 else 5/10
  { pre_run :=
      { carbs_g := pyRound1 (user.weight_kg * pre_carb_g_per_kg)
        notes := if long_or_hard then
            "Aim for low-fiber carbs 2-3h pre-run; add 500 ml fluids."
          else "Small carb snack 30-60 min pre-run." }
    intra_run := intra_fueling duration session.primary_zone
    post_run := post_fueling duration user.weight_kg
    hydration := hydration_guidance duration session.primary_zone }

-- ----------------------------- RecoveryEngine ----------------------------- --

/-- Embeds `RecoveryEngine.readiness_score`: returns `(score, tier)`. Tier bounds from
`READINESS_TIER_BOUNDS` (high 75, moderate 50). -/
def readiness_score (inputs : DailyReadinessInputs) (user : UserProfile)
    (load_zone : String) : ℚ × String :=
  let s0 : ℚ := 100
  let s1 := s0 - max 0 (((15/2 : ℚ) - inputs.sleep_hours) * 5)
  let s2 := s1 + ((inputs.sleep_quality : ℚ) - 7) * 3
  let s3 := s2 - ((inputs.soreness : ℚ) - 3) * 4
  let s4 := s3 - ((inputs.stress : ℚ) - 3) * 3
  let s5 := s4 + ((inputs.mental_energy : ℚ) - 5) * (5/2)
  let s6 :=
    if truthyInt inputs.resting_hr ∧ truthyInt user.resting_hr then
      let delta := inputs.resting_hr.getD 0 - user.resting_hr.getD 0
      if 0 < delta then s5 - (delta : ℚ) * (12/10) else s5
    else s5
  let s7 :=
    match inputs.hrv_change_ms with
    | some v => if v < 0 then s6 + v * (6/10) else s6
    | none => s6
  let s8 := if load_zone = "elevated" ∨ load_zone = "high" then s7 - 8 else s7
  let s9 := if user.injury_flag then s8 - 10 else s8
  let score := clamp s9 0 100
  let tier :=
    if 75 ≤ score then "high" else if 50 ≤ score then "moderate" else "low"
  (score, tier)

structure RecoveryProtocol where
  actions : List String
  monitoring : List String
  deriving Repr, DecidableEq

/-- Embeds `RecoveryEngine.protocol` (`MASTERS_AGE = 40`). -/
def recovery_protocol (readiness_tier : String) (acwr_zone : String)
    (user : UserProfile) : RecoveryProtocol :=
  let actions0 := ["7-9h sleep, consistent bedtime",
                   "Protein with every meal; colorful carbs and healthy fats"]
  let monitoring0 := ["Subjective check-in (mood/soreness)", "Resting HR on waking"]
  let branch :=
    if readiness_tier = "low" ∨ acwr_zone = "high" then
      (actions0 ++ ["Active recovery: 20-40 min easy walk/ride",
                    "10-15 min mobility + light band work",
                    "Early night; reduce stimulants"],
       monitoring0 ++ ["Delay intensity until readiness improves"])
    else if readiness_tier = "moderate" ∨ acwr_zone = "elevated" then
      (actions0 ++ ["Keep intensity at or below Z2 today",
                    "Add 5-10 min of post-run mobility",
                    "Extra 20-30 g carbs in evening meal"], monitoring0)
    else
      (actions0 ++ ["Proceed with planned intensity; keep warmup thorough",
                    "Short strides to maintain neuromuscular readiness"], monitoring0)
  let a1 := if 40 ≤ user.age then
      branch.1 ++ ["Include extra calf/hip stability 2-3x/week; extend cooldown by 5 min"]
    else branch.1
  let a2 := if user.training_level = "novice" then
      a1 ++ ["Prefer soft surfaces; focus on relaxed form cues"]
    else a1
  let a3 := if user.injury_flag then
      a2 ++ ["Prioritize pain-free movement; skip plyometrics and downhill stress"]
    else a2
  { actions := a3, monitoring := branch.2 }

-- ------------------------------ AICoach facade ------------------------------ --

@[ext]
structure Segment where
  label : String
  duration_minutes : ℚ
  target_zone : String
  hr_range_bpm : ℤ × ℤ
  notes : Option String := none
  deriving Repr, DecidableEq

@[ext]
structure Session where
  type : String
  duration_minutes : ℚ
  segments : List Segment
  primary_zone : String
  notes : String
  template : String := ""
  estimated_load : ℚ := 0
  deriving Repr, DecidableEq

/-- Embeds `AICoach._safe_zones`: substitute 190 when `max_hr` is falsy (with an
adaptation note) and derive zones; returns `(zones, notes)`. -/
def safe_zones (user : UserProfile) : HRZones × List String :=
  let notes :=
    if truthyInt user.max_hr then []
    else ["Missing max_hr; defaulting to 190 bpm for zone calc."]
  (hrZonesCore (pyOrInt user.max_hr 190) user.resting_hr, notes)

/-- Embeds `AICoach._adapt_template`: returns the adjusted template plus the
adaptation notes appended, mirroring the sequential mutation of `adjusted`. -/
def adapt_template (template readiness_tier acwr_zone : String)
    (user : UserProfile) : String × List String :=
  let step1 :=
    if user.injury_flag ∧ ¬(template = "Rest" ∨ template = "Recovery") then
      ("Recovery", ["Injury flag set; downgrading to Recovery."])
    else (template, ([] : List String))
  if readiness_tier = "low" then
    let step2 :=
      if ¬(template = "Rest" ∨ template = "Recovery") then
        ("Recovery", step1.2 ++ ["Low readiness detected; replaced hard session with Recovery."])
      else step1
    if acwr_zone = "high" then
      ("Rest", step2.2 ++ ["High ACWR + low readiness; prescribing Rest."])
    else step2
  else if acwr_zone = "high" then
    if template = "VO2_Intervals" ∨ template = "Double_Threshold" then
      ("Threshold", step1.2 ++ ["High ACWR; downgrading from very hard to Threshold."])
    else step1
  else if acwr_zone = "elevated" ∧
      (template = "VO2_Intervals" ∨ template = "Double_Threshold") then
    ("Threshold", step1.2 ++ ["Elevated ACWR; shifting to Threshold focus."])
  else step1

/-- Embeds `AICoach._trim_volume` on the session (the appended adaptation note is
handled by the caller): total and each segment duration are independently
rounded via `max(0, round(d * factor))`. -/
def trim_volume (session : Session) (factor : ℚ) : Session :=
  { session with
    duration_minutes := max 0 (pyRound (session.duration_minutes * factor) : ℚ)
    segments := session.segments.map (fun seg =>
      { seg with duration_minutes := max 0 (pyRound (seg.duration_minutes * factor) : ℚ) }) }

/-- Embeds `AICoach._trim_to_availability`: returns `(session, notes)`. -/
def trim_to_availability (session : Session) (available : ℤ) :
    Session × List String :=
  if session.duration_minutes = 0 then (session, [])
  else
    let factor := (available : ℚ) / max session.duration_minutes 1
    (trim_volume session factor,
     ["Duration capped to availability (" ++ toString available ++ " min)."])

/-- Embeds `INTENSITY_FACTORS.get(zone, 1.0)`. -/
def intensityFactor (zone : String) : ℚ :=
  if zone = "Z1" then 1
  else if zone = "Z2" then 13/10
  else if zone = "Z3" then 16/10
  else if zone = "Z4" then 19/10
  else if zone = "Z5" then 23/10
  else 1

/-- Embeds `AICoach._estimate_load`. -/
def estimate_load (segments : List Segment) : ℚ :=
  pyRound1 (segments.foldl
    (fun total seg => total + seg.duration_minutes * intensityFactor seg.target_zone) 0)

/-- Embeds `AICoach._rest_day`. -/
def rest_day (_day : MicrocycleDayContext) (_mcc : MacrocycleContext)
    (_z : HRZones) : Session :=
  { type := "Rest", duration_minutes := 0, segments := [], primary_zone := "Z1"
    notes := "Full rest or light 20-30 min walk if desired." }

/-- Embeds `AICoach._recovery_run`. -/
def recovery_run (day : MicrocycleDayContext) (_mcc : MacrocycleContext)
    (z : HRZones) : Session :=
  let duration : ℚ := max 20 (min (day.availability_minutes : ℚ) 40)
  { type := "Recovery", duration_minutes := duration
    segments := [{ label := "Easy", duration_minutes := duration,
                   target_zone := "Z1", hr_range_bpm := z.Z1 }]
    primary_zone := "Z1"
    notes := "Keep cadence relaxed; nasal breathing. Optional 3-4x10s strides if feeling fresh." }

/-- Embeds `AICoach._long_run`. -/
def long_run (day : MicrocycleDayContext) (mcc : MacrocycleContext)
    (z : HRZones) : Session :=
  let target_duration : ℚ := min (max (day.availability_minutes : ℚ) 75) 120
  let warmup : ℚ := 10
  let cooldown : ℚ := 10
  let surge_block : ℚ := 8
  let steady0 : ℚ := max (target_duration - (warmup + cooldown + surge_block)) 40
  let total0 : ℚ := warmup + steady0 + surge_block + cooldown
  let steady : ℚ :=
    if target_duration < total0 then max 40 (steady0 - (total0 - target_duration))
    else steady0
  let total_duration : ℚ := warmup + steady + surge_block + cooldown
  let segments :=
    [({ label := "Warm-up", duration_minutes := warmup, target_zone := "Z1",
        hr_range_bpm := z.Z1 } : Segment),
     { label := "Steady", duration_minutes := steady, target_zone := "Z2",
       hr_range_bpm := z.Z2 }]
    ++ (if 0 < surge_block then
          [({ label := "Optional Surges", duration_minutes := surge_block,
              target_zone := "Z3", hr_range_bpm := z.Z3,
              notes := some "4x2 min uptempo with 3 min easy jogs" } : Segment)]
        else [])
    ++ [{ label := "Cool-down", duration_minutes := cooldown, target_zone := "Z1",
          hr_range_bpm := z.Z1 }]
  { type := "Endurance", duration_minutes := total_duration, segments := segments
    primary_zone := "Z2"
    notes := "Macrocycle phase: " ++ mcc.phase ++ ". Keep fueling steady; avoid racing the long run." }

/-- Embeds `zip(intervals, recoveries + [None])` interleaving of work and recovery
segments (`if rec:` skips the trailing `None`). -/
def interleaveReps : List Segment → List (Option Segment) → List Segment
  | [], _ => []
  | _ :: _, [] => []
  | r :: rs, o :: os => r :: (o.toList ++ interleaveReps rs os)

/-- Embeds `AICoach._threshold_run`. -/
def threshold_run (day : MicrocycleDayContext) (mcc : MacrocycleContext)
    (z : HRZones) : Session :=
  let recovery : ℚ := 3
  let total_main0 : ℚ := 3 * 10 + (3 - 1) * recovery
  let total0 : ℚ := 15 + total_main0 + 10
  let scaled := (day.availability_minutes : ℚ) < total0
  let factor := (day.availability_minutes : ℚ) / total0
  let rep_duration : ℚ := if scaled then max 8 (pyRound (10 * factor) : ℚ) else 10
  let reps : ℕ := if scaled then max 2 (3 - 1) else 3
  let total_main : ℚ := (reps : ℚ) * rep_duration + ((reps : ℚ) - 1) * recovery
  let total_duration : ℚ := 15 + total_main + 10
  let intervals := (List.range reps).map (fun i =>
    ({ label := "Threshold rep " ++ toString (i + 1), duration_minutes := rep_duration,
       target_zone := "Z3", hr_range_bpm := z.Z3 } : Segment))
  let recoveries := (List.range (reps - 1)).map (fun i =>
    ({ label := "Recovery jog " ++ toString (i + 1), duration_minutes := recovery,
       target_zone := "Z1", hr_range_bpm := z.Z1 } : Segment))
  let segments :=
    ({ label := "Warm-up", duration_minutes := 15, target_zone := "Z1",
       hr_range_bpm := z.Z1 } : Segment)
    :: (interleaveReps intervals (recoveries.map some ++ [none])
        ++ [{ label := "Cool-down", duration_minutes := 10, target_zone := "Z1",
              hr_range_bpm := z.Z1 }])
  { type := "Lactate Threshold", duration_minutes := total_duration
    segments := segments, primary_zone := "Z3"
    notes := "Stay controlled; avoid drifting into VO2. Phase: " ++ mcc.phase ++ "." }

/-- Embeds `AICoach._vo2_intervals`. -/
def vo2_intervals (day : MicrocycleDayContext) (mcc : MacrocycleContext)
    (z : HRZones) : Session :=
  let recovery : ℚ := 2
  let rep_duration : ℚ := 3
  let total_main0 : ℚ := 5 * rep_duration + (5 - 1) * recovery
  let total0 : ℚ := 15 + total_main0 + 10
  let scaled := (day.availability_minutes : ℚ) < total0
  let reps : ℕ := if scaled then max 4 (5 - 1) else 5
  let total_main : ℚ := (reps : ℚ) * rep_duration + ((reps : ℚ) - 1) * recovery
  let total_duration : ℚ := 15 + total_main + 10
  let intervals := (List.range reps).map (fun i =>
    ({ label := "VO2 rep " ++ toString (i + 1), duration_minutes := rep_duration,
       target_zone := "Z4", hr_range_bpm := z.Z4 } : Segment))
  let recoveries := (List.range (reps - 1)).map (fun i =>
    ({ label := "Recovery jog " ++ toString (i + 1), duration_minutes := recovery,
       target_zone := "Z1", hr_range_bpm := z.Z1 } : Segment))
  let segments :=
    ({ label := "Warm-up", duration_minutes := 15, target_zone := "Z1",
       hr_range_bpm := z.Z1 } : Segment)
    :: (interleaveReps intervals (recoveries.map some ++ [none])
        ++ [{ label := "Cool-down", duration_minutes := 10, target_zone := "Z1",
              hr_range_bpm := z.Z1 }])
  { type := "VO2 Max Intervals", duration_minutes := total_duration
    segments := segments, primary_zone := "Z4"
    notes := "Target fast-but-controlled reps; stop early if form breaks. Phase: " ++ mcc.phase ++ "." }

/-- Embeds `AICoach._double_threshold`. -/
def double_threshold (day : MicrocycleDayContext) (mcc : MacrocycleContext)
    (z : HRZones) : Session :=
  let warmup : ℚ := 10
  let cooldown : ℚ := 10
  let planned_total : ℚ := warmup + 25 + 10 + 30 + cooldown
  let target_total : ℚ := min (day.availability_minutes : ℚ) 90
  let scaled := target_total < planned_total
  let factor := target_total / planned_total
  let am_block : ℚ := if scaled then max 15 (pyRound (25 * factor) : ℚ) else 25
  let pm_block : ℚ := if scaled then max 20 (pyRound (30 * factor) : ℚ) else 30
  let easy_between : ℚ := if scaled then max 5 (pyRound (10 * factor) : ℚ) else 10
  let total_duration : ℚ := warmup + am_block + easy_between + pm_block + cooldown
  { type := "Double Threshold (conservative)", duration_minutes := total_duration
    segments :=
      [{ label := "Warm-up", duration_minutes := warmup, target_zone := "Z1",
         hr_range_bpm := z.Z1 },
       { label := "AM Tempo", duration_minutes := am_block, target_zone := "Z3",
         hr_range_bpm := z.Z3 },
       { label := "Recovery jog", duration_minutes := easy_between, target_zone := "Z1",
         hr_range_bpm := z.Z1 },
       { label := "PM Steady", duration_minutes := pm_block, target_zone := "Z2",
         hr_range_bpm := z.Z2 },
       { label := "Cool-down", duration_minutes := cooldown, target_zone := "Z1",
         hr_range_bpm := z.Z1 }]
    primary_zone := "Z3"
    notes := "Keep conservative intensity; cut second block if fatigue rises. Phase: " ++ mcc.phase ++ "." }

/-- The builder dispatch table of `_build_training_session` (unknown templates
default to the recovery run), with `session["template"] = template` applied. -/
def builtSession (template : String) (day : MicrocycleDayContext)
    (mcc : MacrocycleContext) (z : HRZones) : Session :=
  let builder :=
    if template = "Rest" then rest_day
    else if template = "Recovery" then recovery_run
    else if template = "Long Run" then long_run
    else if template = "Threshold" then threshold_run
    else if template = "VO2_Intervals" then vo2_intervals
    else if template = "Double_Threshold" then double_threshold
    else recovery_run
  { builder day mcc z with template := template }

/-- Embeds `_build_training_session` up to (and including) the moderate-readiness
trim, before the availability check; returns `(session, notes)`. -/
def preAvailSession (template : String) (day : MicrocycleDayContext)
    (mcc : MacrocycleContext) (z : HRZones) (readiness_tier : String) :
    Session × List String :=
  let s := builtSession template day mcc z
  if readiness_tier = "moderate" ∧ ¬(template = "Rest" ∨ template = "Recovery") then
    (trim_volume s (85/100), ["Moderate readiness; trimmed volume by 15%."])
  else (s, [])

/-- Embeds `AICoach._build_training_session`: builder dispatch, readiness trim,
availability trim, then `estimated_load`; returns `(session, notes)`. -/
def build_training_session (template : String) (day : MicrocycleDayContext)
    (mcc : MacrocycleContext) (z : HRZones) (readiness_tier : String) :
    Session × List String :=
  let p := preAvailSession template day mcc z readiness_tier
  let q :=
    if day.availability_minutes ≠ 0 ∧
        (day.availability_minutes : ℚ) < p.1.duration_minutes then
      let t := trim_to_availability p.1 day.availability_minutes
      (t.1, p.2 ++ t.2)
    else p
  ({ q.1 with estimated_load := estimate_load q.1.segments }, q.2)

structure Readiness where
  score : ℚ
  tier : String
  deriving Repr, DecidableEq

/-- The daily-plan record assembled by `generate_daily_plan` (the `meta` echo
of the raw inputs is omitted as pure duplication of the arguments). -/
structure DayEntry where
  day_index : ℤ
  day_name : String
  template_requested : String
  template_final : String
  training_session : Session
  nutrition_engine : NutritionPlan
  recovery_protocol : RecoveryProtocol
  load_risk : LoadReport
  readiness : Readiness
  adaptations : List String
  deriving Repr, DecidableEq

/-- Embeds `AICoach.generate_daily_plan`. -/
def generate_daily_plan (user : UserProfile) (mcc : MacrocycleContext)
    (day : MicrocycleDayContext) : DayEntry :=
  let hz := safe_zones user
  let lr := load_report day.load_history
  let rs := readiness_score day.readiness_inputs user lr.zone
  let ad := adapt_template day.template rs.2 lr.zone user
  let bs := build_training_session ad.1 day mcc hz.1 rs.2
  let nutrition := build_plan
    { duration_minutes := bs.1.duration_minutes, template := bs.1.template,
      primary_zone := bs.1.primary_zone } user
  let rp := recovery_protocol rs.2 lr.zone user
  { day_index := day.day_index
    day_name := day.day_name
    template_requested := day.template
    template_final := ad.1
    training_session := bs.1
    nutrition_engine := nutrition
    recovery_protocol := rp
    load_risk := lr
    readiness := { score := pyRound1 rs.1, tier := rs.2 }
    adaptations := hz.2 ++ ad.2 ++ bs.2 }

/-- Sum of segment durations of a session. -/
def segmentSum (segments : List Segment) : ℚ :=
  (segments.map Segment.duration_minutes).sum

-- ------------------------------ Helper lemmas ------------------------------ --

theorem pyRound_intCast (n : ℤ) : pyRound ((n : ℚ)) = n := by
  simp [pyRound, ratFloor]

theorem clamp_lower (v lo hi : ℚ) : lo ≤ clamp v lo hi := le_max_left _ _

theorem clamp_upper (v lo hi : ℚ) (h : lo ≤ hi) : clamp v lo hi ≤ hi :=
  max_le h (min_le_left _ _)

theorem trim_volume_duration (s : Session) (f : ℚ) :
    (trim_volume s f).duration_minutes =
      max 0 ((pyRound (s.duration_minutes * f) : ℚ)) := rfl

theorem trim_volume_segmentSum (s : Session) (f : ℚ) :
    segmentSum (trim_volume s f).segments =
      ((s.segments.map Segment.duration_minutes).map
        (fun d => max 0 ((pyRound (d * f) : ℚ)))).sum := by
  simp [segmentSum, trim_volume, List.map_map]
  rfl

end Coach

namespace Coach

/-- Claim C4: for every ACWR value arising from a chronic load > 0 (so the
ratio is the finite rational acute/chronic), `classify_acwr` realises an exact
partition of the number line: "underload" iff the value is below 0.8,
"optimal" iff it lies in [0.8, 1.3], "elevated" iff it lies in (1.3, 1.5],
and "high" iff it exceeds 1.5. -/
theorem acwr_zones_partition (acute chronic : ℚ) (hc : 0 < chronic) :
    compute_acwr acute chronic = AcwrValue.finite (acute / chronic) ∧
    ((classify_acwr (acute / chronic) = "underload" ↔ acute / chronic < 8/10) ∧
     (classify_acwr (acute / chronic) = "optimal" ↔
        8/10 ≤ acute / chronic ∧ acute / chronic ≤ 13/10) ∧
     (classify_acwr (acute / chronic) = "elevated" ↔
        13/10 < acute / chronic ∧ acute / chronic ≤ 15/10) ∧
     (classify_acwr (acute / chronic) = "high" ↔ 15/10 < acute / chronic)) := by
  constructor
  · simp [compute_acwr, not_le.mpr hc]
  · set q := acute / chronic with hq
    unfold classify_acwr
    split_ifs with h1 h2 h3
    · exact ⟨iff_of_true rfl h1,
        iff_of_false (by decide) (by rintro ⟨h, _⟩; linarith),
        iff_of_false (by decide) (by rintro ⟨h, _⟩; linarith),
        iff_of_false (by decide) (by intro h; linarith)⟩
    · exact ⟨iff_of_false (by decide) h1,
        iff_of_true rfl h2,
        iff_of_false (by decide) (by rintro ⟨h, _⟩; rcases h2 with ⟨_, hb⟩; linarith),
        iff_of_false (by decide) (by intro h; rcases h2 with ⟨_, hb⟩; linarith)⟩
    · exact ⟨iff_of_false (by decide) h1,
        iff_of_false (by decide) h2,
        iff_of_true rfl h3,
        iff_of_false (by decide) (by intro h; rcases h3 with ⟨_, hb⟩; linarith)⟩
    · have hq8 : 8/10 ≤ q := not_lt.mp h1
      have h13 : 13/10 < q := by
        by_contra hcon
        exact h2 ⟨hq8, not_lt.mp hcon⟩
      have h15 : 15/10 < q := by
        by_contra hcon
        exact h3 ⟨h13, not_lt.mp hcon⟩
      exact ⟨iff_of_false (by decide) h1,
        iff_of_false (by decide) h2,
        iff_of_false (by decide) h3,
        iff_of_true rfl h15⟩

/-- Claim C4 witness: instantiation at acute = 1, chronic = 1. -/
theorem acwr_zones_partition_witness :
    compute_acwr 1 1 = AcwrValue.finite (1 / 1) ∧
    ((classify_acwr (1 / 1) = "underload" ↔ (1:ℚ) / 1 < 8/10) ∧
     (classify_acwr (1 / 1) = "optimal" ↔
        (8:ℚ)/10 ≤ 1 / 1 ∧ (1:ℚ) / 1 ≤ 13/10) ∧
     (classify_acwr (1 / 1) = "elevated" ↔
        (13:ℚ)/10 < 1 / 1 ∧ (1:ℚ) / 1 ≤ 15/10) ∧
     (classify_acwr (1 / 1) = "high" ↔ (15:ℚ)/10 < 1 / 1)) :=
  acwr_zones_partition 1 1 (by norm_num)

/-- Claim C5: for every nonempty load history, the acute load is the mean of
the trailing 7 entries, the chronic load is the mean of the trailing 28
entries (of the whole history when it is shorter than 28), and the ACWR is
acute/chronic when chronic > 0, infinite when chronic is zero and acute
positive, and zero when both vanish. -/
theorem acute_chronic_acwr_spec (h : List ℚ) (hne : h ≠ []) :
    (compute_acute_chronic h).1 =
      (h.drop (h.length - 7)).sum / ((h.drop (h.length - 7)).length : ℚ) ∧
    (compute_acute_chronic h).2 =
      (if 28 ≤ h.length then
        (h.drop (h.length - 28)).sum / ((h.drop (h.length - 28)).length : ℚ)
      else h.sum / (h.length : ℚ)) ∧
    (0 < (compute_acute_chronic h).2 →
      compute_acwr (compute_acute_chronic h).1 (compute_acute_chronic h).2 =
        AcwrValue.finite ((compute_acute_chronic h).1 / (compute_acute_chronic h).2)) ∧
    ((compute_acute_chronic h).2 = 0 → 0 < (compute_acute_chronic h).1 →
      compute_acwr (compute_acute_chronic h).1 (compute_acute_chronic h).2 =
        AcwrValue.infinite) ∧
    ((compute_acute_chronic h).2 = 0 → (compute_acute_chronic h).1 = 0 →
      compute_acwr (compute_acute_chronic h).1 (compute_acute_chronic h).2 =
        AcwrValue.finite 0) := by
  refine ⟨?_, ?_, ?_, ?_, ?_⟩
  · simp [compute_acute_chronic, hne, takeLast, listMean]
  · simp only [compute_acute_chronic, if_neg hne]
    split
    · simp [takeLast, listMean]
    · simp [takeLast, listMean]
  · intro hpos
    simp [compute_acwr, not_le.mpr hpos]
  · intro hz hpos
    simp [compute_acwr, hz, hpos]
  · intro hz ha
    simp [compute_acwr, hz, ha]

/-- Claim C5 witness: instantiation at the two-entry history [2, 4]
(shorter than both windows: acute = chronic = 3, ACWR finite 1). -/
theorem acute_chronic_acwr_spec_witness :
    (compute_acute_chronic [2, 4]).1 =
      (([2, 4] : List ℚ).drop ([2, 4].length - 7)).sum /
        (((([2, 4] : List ℚ)).drop ([2, 4].length - 7)).length : ℚ) ∧
    (compute_acute_chronic [2, 4]).2 =
      (if 28 ≤ ([2, 4] : List ℚ).length then
        (([2, 4] : List ℚ).drop ([2, 4].length - 28)).sum /
          ((([2, 4] : List ℚ).drop ([2, 4].length - 28)).length : ℚ)
      else ([2, 4] : List ℚ).sum / (([2, 4] : List ℚ).length : ℚ)) ∧
    (0 < (compute_acute_chronic [2, 4]).2 →
      compute_acwr (compute_acute_chronic [2, 4]).1 (compute_acute_chronic [2, 4]).2 =
        AcwrValue.finite
          ((compute_acute_chronic [2, 4]).1 / (compute_acute_chronic [2, 4]).2)) ∧
    ((compute_acute_chronic [2, 4]).2 = 0 → 0 < (compute_acute_chronic [2, 4]).1 →
      compute_acwr (compute_acute_chronic [2, 4]).1 (compute_acute_chronic [2, 4]).2 =
        AcwrValue.infinite) ∧
    ((compute_acute_chronic [2, 4]).2 = 0 → (compute_acute_chronic [2, 4]).1 = 0 →
      compute_acwr (compute_acute_chronic [2, 4]).1 (compute_acute_chronic [2, 4]).2 =
        AcwrValue.finite 0) :=
  acute_chronic_acwr_spec [2, 4] (by simp)

/-- Claim C6: `heart_rate_zones` fails exactly when its max-HR argument is
absent or zero; the facade path `_safe_zones` always passes `max_hr or 190`,
a value on which the computation succeeds, and when `max_hr` is missing it
substitutes 190 and records the adaptation note. -/
theorem hr_zones_error_iff (mh rh : Option ℤ) (u : UserProfile) :
    ((∃ e, heart_rate_zones mh rh = Except.error e) ↔ (mh = none ∨ mh = some 0)) ∧
    heart_rate_zones (some (pyOrInt u.max_hr 190)) u.resting_hr =
      Except.ok (safe_zones u).1 ∧
    (u.max_hr = none →
      pyOrInt u.max_hr 190 = 190 ∧
      "Missing max_hr; defaulting to 190 bpm for zone calc." ∈ (safe_zones u).2) := by
  have hnz : pyOrInt u.max_hr 190 ≠ 0 := by
    rcases hmx : u.max_hr with _ | v
    · simp [pyOrInt]
    · by_cases hv : v = 0 <;> simp [pyOrInt, hv]
  refine ⟨?_, ?_, ?_⟩
  · constructor
    · intro ⟨e, he⟩
      by_contra hcon
      simp [heart_rate_zones, hcon] at he
    · intro hcond
      exact ⟨"max_hr is required to derive zones", by simp [heart_rate_zones, hcond]⟩
  · have hcond : ¬ (some (pyOrInt u.max_hr 190) = none ∨
        some (pyOrInt u.max_hr 190) = some 0) := by simp [hnz]
    simp [heart_rate_zones, hcond, safe_zones]
    exact hnz
  · intro hmx
    simp [pyOrInt, hmx, safe_zones, truthyInt]

/-- Claim C6 witness: instantiation at a missing max HR (direct call errors)
and a profile without max HR (facade path succeeds with the note). -/
theorem hr_zones_error_iff_witness :
    ((∃ e, heart_rate_zones none none = Except.error e) ↔
      ((none : Option ℤ) = none ∨ (none : Option ℤ) = some 0)) ∧
    heart_rate_zones
        (some (pyOrInt ({ user_id := "u", age := 30, weight_kg := 60 } :
          UserProfile).max_hr 190))
        ({ user_id := "u", age := 30, weight_kg := 60 } : UserProfile).resting_hr =
      Except.ok (safe_zones { user_id := "u", age := 30, weight_kg := 60 }).1 ∧
    (({ user_id := "u", age := 30, weight_kg := 60 } : UserProfile).max_hr = none →
      pyOrInt ({ user_id := "u", age := 30, weight_kg := 60 } :
        UserProfile).max_hr 190 = 190 ∧
      "Missing max_hr; defaulting to 190 bpm for zone calc." ∈
        (safe_zones { user_id := "u", age := 30, weight_kg := 60 }).2) :=
  hr_zones_error_iff none none { user_id := "u", age := 30, weight_kg := 60 }

/-- Claim C7: the readiness score is always in [0,100] and the tier is "high"
iff the score is at least 75, "moderate" iff it is in [50, 75), and "low"
iff it is below 50, for every combination of inputs, profile and load zone. -/
theorem readiness_score_clamped_tiers (inputs : DailyReadinessInputs)
    (user : UserProfile) (load_zone : String) :
    (0 ≤ (readiness_score inputs user load_zone).1 ∧
      (readiness_score inputs user load_zone).1 ≤ 100) ∧
    ((readiness_score inputs user load_zone).2 = "high" ↔
      75 ≤ (readiness_score inputs user load_zone).1) ∧
    ((readiness_score inputs user load_zone).2 = "moderate" ↔
      50 ≤ (readiness_score inputs user load_zone).1 ∧
        (readiness_score inputs user load_zone).1 < 75) ∧
    ((readiness_score inputs user load_zone).2 = "low" ↔
      (readiness_score inputs user load_zone).1 < 50) := by
  have key : ∀ p : ℚ × String,
      (p.1 = clamp ((readiness_score inputs user load_zone).1) 0 100 ∧
        p.2 = (readiness_score inputs user load_zone).2) → True := fun _ _ => trivial
  clear key
  rcases hdef : readiness_score inputs user load_zone with ⟨score, tier⟩
  have hscore : 0 ≤ score ∧ score ≤ 100 := by
    have h1 : score = (readiness_score inputs user load_zone).1 := by rw [hdef]
    simp only [readiness_score] at h1
    subst h1
    exact ⟨clamp_lower _ _ _, clamp_upper _ _ _ (by norm_num)⟩
  have htier : tier = (if 75 ≤ score then "high"
      else if 50 ≤ score then "moderate" else "low") := by
    have h1 : score = (readiness_score inputs user load_zone).1 := by rw [hdef]
    have h2 : tier = (readiness_score inputs user load_zone).2 := by rw [hdef]
    simp only [readiness_score] at h1 h2 ⊢
    rw [h2, h1]
  refine ⟨hscore, ?_, ?_, ?_⟩
  · by_cases h75 : 75 ≤ score <;> by_cases h50 : 50 ≤ score <;>
      simp [htier, h75, h50] <;> linarith
  · by_cases h75 : 75 ≤ score <;> by_cases h50 : 50 ≤ score <;>
      simp [htier, h75, h50] <;> first | linarith | (intro h; linarith)
  · by_cases h75 : 75 ≤ score <;> by_cases h50 : 50 ≤ score <;>
      simp [htier, h75, h50] <;> first | linarith | (intro h; linarith)

/-- The 60-89 minute intra-fueling rule, selected for a 75-minute session. -/
theorem intraRuleFor_75 : intraRuleFor 75 =
    ({ min_minutes := 60, max_minutes := 89, carbs_g_per_hour := 30,
       fluids := "Water + electrolytes", electrolytes_mg_per_l := 400 } : IntraRule) := by
  unfold intraRuleFor INTRA_CARB_RULES
  rw [List.find?_cons_of_neg, List.find?_cons_of_pos]
  · exact decide_eq_true (by norm_num)
  · simp only [decide_eq_true_eq]
    norm_num

def userC8 : UserProfile := { user_id := "athlete", age := 35, weight_kg := 68 }

/-- Claim C8: for a 68 kg user and a 75-minute session on a long/hard
template, the nutrition plan has pre-run carbs 68.0 g, intra-run carb rate
30 g/h for every intensity zone (the top-zone override needs at least 90
minutes), post-run protein 18.4 g and post-run carbs 54.4 g. -/
theorem nutrition_example_68kg (template zone : String)
    (hlh : isLongOrHard template = true) :
    (build_plan { duration_minutes := 75, template := template,
                  primary_zone := zone } userC8).pre_run.carbs_g = 68 ∧
    (build_plan { duration_minutes := 75, template := template,
                  primary_zone := zone } userC8).intra_run.carbs_g_per_hour = 30 ∧
    (build_plan { duration_minutes := 75, template := template,
                  primary_zone := zone } userC8).post_run.protein_g = 184/10 ∧
    (build_plan { duration_minutes := 75, template := template,
                  primary_zone := zone } userC8).post_run.carbs_g = 544/10 := by
  have hover : ¬ ((zone = "Z4" ∨ zone = "Z5") ∧ (90 : ℚ) ≤ 75) := by
    rintro ⟨_, h⟩
    norm_num at h
  refine ⟨?_, ?_, ?_, ?_⟩
  · simp [build_plan, hlh, userC8, pyRound1]
    norm_num [pyRound, ratFloor]
  · simp [build_plan, intra_fueling, intraRuleFor_75, hover]
  · simp [build_plan, post_fueling, userC8, pyRound1]
    norm_num [pyRound, ratFloor]
  · simp [build_plan, post_fueling, userC8, pyRound1]
    norm_num [pyRound, ratFloor]

/-- Claim C8 witness: instantiation at the "Long Run" template and zone Z2. -/
theorem nutrition_example_68kg_witness :
    (build_plan { duration_minutes := 75, template := "Long Run",
                  primary_zone := "Z2" } userC8).pre_run.carbs_g = 68 ∧
    (build_plan { duration_minutes := 75, template := "Long Run",
                  primary_zone := "Z2" } userC8).intra_run.carbs_g_per_hour = 30 ∧
    (build_plan { duration_minutes := 75, template := "Long Run",
                  primary_zone := "Z2" } userC8).post_run.protein_g = 184/10 ∧
    (build_plan { duration_minutes := 75, template := "Long Run",
                  primary_zone := "Z2" } userC8).post_run.carbs_g = 544/10 :=
  nutrition_example_68kg "Long Run" "Z2" (by decide)

/-- Claim C10: for a session duration outside every intra-fueling band
(strictly between 180 and 181 minutes, or greater than 300 minutes), the
selection loop keeps the first band as fallback, so the plan carries 0 g/h
carbs, "Water" fluids and 300 mg/L electrolytes, except that the carb rate
becomes 70 g/h when the zone is Z4 or Z5 and the duration is at least 90. -/
theorem intra_fueling_out_of_band (d : ℚ) (zone : String)
    (hd : (180 < d ∧ d < 181) ∨ 300 < d) :
    (∀ r ∈ INTRA_CARB_RULES, ¬ (r.min_minutes ≤ d ∧ d ≤ r.max_minutes)) ∧
    (intra_fueling d zone).carbs_g_per_hour =
      (if (zone = "Z4" ∨ zone = "Z5") ∧ 90 ≤ d then 70 else 0) ∧
    (intra_fueling d zone).fluids = "Water" ∧
    (intra_fueling d zone).electrolytes_mg_per_l = 300 := by
  have hd90 : (90 : ℚ) ≤ d := by
    rcases hd with ⟨h1, _⟩ | h1 <;> linarith
  have n0 : ¬ ((0 : ℚ) ≤ d ∧ d ≤ 59) := by
    rintro ⟨h1, h2⟩
    linarith
  have n1 : ¬ ((60 : ℚ) ≤ d ∧ d ≤ 89) := by
    rintro ⟨h1, h2⟩
    linarith
  have n2 : ¬ ((90 : ℚ) ≤ d ∧ d ≤ 180) := by
    rintro ⟨h1, h2⟩
    rcases hd with ⟨ha, hb⟩ | ha <;> linarith
  have n3 : ¬ ((181 : ℚ) ≤ d ∧ d ≤ 300) := by
    rintro ⟨h1, h2⟩
    rcases hd with ⟨ha, hb⟩ | ha <;> linarith
  have hout : ∀ r ∈ INTRA_CARB_RULES, ¬ (r.min_minutes ≤ d ∧ d ≤ r.max_minutes) := by
    intro r hr
    simp only [INTRA_CARB_RULES, List.mem_cons, List.not_mem_nil, or_false] at hr
    rcases hr with rfl | rfl | rfl | rfl
    · exact n0
    · exact n1
    · exact n2
    · exact n3
  have hrule : intraRuleFor d =
      ({ min_minutes := 0, max_minutes := 59, carbs_g_per_hour := 0,
         fluids := "Water", electrolytes_mg_per_l := 300 } : IntraRule) := by
    unfold intraRuleFor INTRA_CARB_RULES
    rw [List.find?_cons_of_neg, List.find?_cons_of_neg,
      List.find?_cons_of_neg, List.find?_cons_of_neg]
    · rfl
    · simp only [decide_eq_true_eq]
      exact n3
    · simp only [decide_eq_true_eq]
      exact n2
    · simp only [decide_eq_true_eq]
      exact n1
    · simp only [decide_eq_true_eq]
      exact n0
  refine ⟨hout, ?_, ?_, ?_⟩
  · by_cases hz : zone = "Z4" ∨ zone = "Z5"
    · simp [intra_fueling, hrule, hz, hd90]
    · simp [intra_fueling, hrule, hz]
  · by_cases hz : (zone = "Z4" ∨ zone = "Z5") ∧ 90 ≤ d <;>
      simp [intra_fueling, hrule, hz]
  · by_cases hz : (zone = "Z4" ∨ zone = "Z5") ∧ 90 ≤ d <;>
      simp [intra_fueling, hrule, hz]

/-- When the injury flag is set and the requested template is "Threshold",
the adapted template is "Recovery" unless low readiness meets a high ACWR
zone, which escalates to "Rest"; the injury note is always appended. -/
theorem adapt_template_threshold_injury (tier zone : String) (u : UserProfile)
    (hinj : u.injury_flag = true) :
    (adapt_template "Threshold" tier zone u).1 =
      (if tier = "low" ∧ zone = "high" then "Rest" else "Recovery") ∧
    "Injury flag set; downgrading to Recovery." ∈
      (adapt_template "Threshold" tier zone u).2 := by
  by_cases hl : tier = "low" <;> by_cases hh : zone = "high" <;>
    by_cases he : zone = "elevated" <;>
      simp [adapt_template, hinj, hl, hh, he]

def userC1 : UserProfile :=
  { user_id := "cex", age := 30, weight_kg := 68, injury_flag := true }

def mccDemo : MacrocycleContext :=
  { phase := "build", weeks_to_event := 10, goal_event := "HM" }

def dayC1 : MicrocycleDayContext :=
  { day_index := 2, day_name := "Wed", template := "Threshold",
    availability_minutes := 60,
    readiness_inputs := { sleep_hours := 4, sleep_quality := 1, soreness := 10,
                          stress := 10, mental_energy := 1 },
    load_history := [0, 0, 0, 0, 1, 1, 1, 1, 1, 1, 1] }

/-- The counterexample history (four zero days then seven loaded days, ACWR
11/7 > 1.5) is classified in the "high" zone. -/
theorem loadZone_dayC1 : (load_report dayC1.load_history).zone = "high" := by
  simp [load_report, dayC1, compute_acute_chronic, takeLast, listMean,
    compute_acwr, classifyAcwrValue, classify_acwr]
  norm_num

/-- The counterexample readiness inputs put the tier at "low" under a "high"
load zone. -/
theorem tier_dayC1 :
    (readiness_score dayC1.readiness_inputs userC1 "high").2 = "low" := by
  simp [readiness_score, dayC1, userC1, truthyInt, clamp, min_def, max_def]
  norm_num

/-- Claim C1 counterexample: with the injury flag set and requested template
"Threshold", the input dayC1 (low readiness, high ACWR) makes
`generate_daily_plan` return final template "Rest", not "Recovery". -/
theorem injury_threshold_counterexample :
    userC1.injury_flag = true ∧ dayC1.template = "Threshold" ∧
    (generate_daily_plan userC1 mccDemo dayC1).template_final = "Rest" := by
  refine ⟨rfl, rfl, ?_⟩
  simp only [generate_daily_plan]
  rw [show dayC1.template = "Threshold" from rfl, loadZone_dayC1, tier_dayC1]
  simp [adapt_template, userC1]

/-- Claim C1 (amended): with the injury flag set and requested template
"Threshold", the plan carries the injury-downgrade note and its final
template is "Recovery", except when the computed readiness tier is "low" and
the ACWR zone is "high", in which case it is "Rest". -/
theorem injury_threshold_amended (u : UserProfile) (mcc : MacrocycleContext)
    (day : MicrocycleDayContext)
    (hinj : u.injury_flag = true) (ht : day.template = "Threshold") :
    "Injury flag set; downgrading to Recovery." ∈
      (generate_daily_plan u mcc day).adaptations ∧
    (generate_daily_plan u mcc day).template_final =
      (if (generate_daily_plan u mcc day).readiness.tier = "low" ∧
          (generate_daily_plan u mcc day).load_risk.zone = "high"
       then "Rest" else "Recovery") := by
  obtain ⟨hfin, hmem⟩ := adapt_template_threshold_injury
    (readiness_score day.readiness_inputs u (load_report day.load_history).zone).2
    (load_report day.load_history).zone u hinj
  simp only [generate_daily_plan, ht]
  constructor
  · simp only [List.mem_append]
    exact Or.inl (Or.inr hmem)
  · exact hfin

def userC1w : UserProfile :=
  { user_id := "wit", age := 30, weight_kg := 68, injury_flag := true }

def dayC1w : MicrocycleDayContext :=
  { day_index := 3, day_name := "Thu", template := "Threshold",
    availability_minutes := 60,
    readiness_inputs := { sleep_hours := 8, sleep_quality := 8, soreness := 2,
                          stress := 2, mental_energy := 8 },
    load_history := [50, 50, 50] }

/-- Claim C1 witness: instantiation of the amended claim at a concrete
injured profile requesting "Threshold". -/
theorem injury_threshold_amended_witness :
    "Injury flag set; downgrading to Recovery." ∈
      (generate_daily_plan userC1w mccDemo dayC1w).adaptations ∧
    (generate_daily_plan userC1w mccDemo dayC1w).template_final =
      (if (generate_daily_plan userC1w mccDemo dayC1w).readiness.tier = "low" ∧
          (generate_daily_plan userC1w mccDemo dayC1w).load_risk.zone = "high"
       then "Rest" else "Recovery") :=
  injury_threshold_amended userC1w mccDemo dayC1w rfl rfl

/-- Claim C10 witness: instantiation at duration 180.5 and zone Z1. -/
theorem intra_fueling_out_of_band_witness :
    (∀ r ∈ INTRA_CARB_RULES,
      ¬ (r.min_minutes ≤ (361/2 : ℚ) ∧ (361/2 : ℚ) ≤ r.max_minutes)) ∧
    (intra_fueling (361/2) "Z1").carbs_g_per_hour =
      (if (("Z1" : String) = "Z4" ∨ ("Z1" : String) = "Z5") ∧ (90 : ℚ) ≤ 361/2
       then 70 else 0) ∧
    (intra_fueling (361/2) "Z1").fluids = "Water" ∧
    (intra_fueling (361/2) "Z1").electrolytes_mg_per_l = 300 :=
  intra_fueling_out_of_band (361/2) "Z1" (Or.inl (by norm_num))

theorem max_zero_intCast (m : ℤ) : max 0 ((m : ℚ)) = ((m.toNat : ℕ) : ℚ) := by
  rcases le_or_lt 0 m with hm | hm
  · rw [max_eq_right (by exact_mod_cast hm)]
    exact_mod_cast (Int.toNat_of_nonneg hm).symm
  · rw [max_eq_left (by exact_mod_cast hm.le)]
    rw [Int.toNat_of_nonpos hm.le]
    simp

theorem pyRound_nat_fix (d : ℚ) (hd : ∃ n : ℕ, d = n) :
    max 0 ((pyRound d : ℚ)) = d := by
  obtain ⟨n, rfl⟩ := hd
  have h1 : pyRound ((n : ℚ)) = (n : ℤ) := by
    have h2 := pyRound_intCast (n : ℤ)
    have h3 : (((n : ℤ)) : ℚ) = (n : ℚ) := by norm_cast
    rw [h3] at h2
    exact h2
  rw [h1, max_eq_right (by positivity)]
  norm_cast

def sC9 : Session :=
  { type := "Recovery", duration_minutes := 10,
    segments := [{ label := "Easy", duration_minutes := 10,
                   target_zone := "Z1", hr_range_bpm := (120, 140) }],
    primary_zone := "Z1", notes := "easy jog" }

/-- Claim C9 counterexample: trimming the ten-minute session sC9 twice at
factor 0.5 gives duration 2 (round(round(10 x 0.5) x 0.5) with the half-even
tie at 2.5), while trimming once gives 5, so re-application at the same
factor changes the session. -/
theorem trim_not_idempotent_counterexample :
    trim_volume (trim_volume sC9 (1/2)) (1/2) ≠ trim_volume sC9 (1/2) := by
  have h1 : (trim_volume sC9 (1/2)).duration_minutes = 5 := by
    rw [trim_volume_duration]
    norm_num [sC9, pyRound, ratFloor, max_def]
  have h2 : (trim_volume (trim_volume sC9 (1/2)) (1/2)).duration_minutes = 2 := by
    rw [trim_volume_duration, h1]
    norm_num [pyRound, ratFloor, max_def]
  intro h
  rw [h, h1] at h2
  norm_num at h2

/-- Claim C9 (amended): trimming is idempotent at factor 1.0 only: for a
session whose total and segment durations are nonnegative integers (as all
sessions built by the program are), trimming by 1.0 changes nothing, and in
particular re-applying the 1.0 trim yields the same session. -/
theorem trim_idempotent_amended (s : Session)
    (hdur : ∃ n : ℕ, s.duration_minutes = n)
    (hsegs : ∀ seg ∈ s.segments, ∃ n : ℕ, seg.duration_minutes = n) :
    trim_volume s 1 = s ∧
    trim_volume (trim_volume s 1) 1 = trim_volume s 1 := by
  have hdfix := pyRound_nat_fix s.duration_minutes hdur
  have hone : trim_volume s 1 = s := by
    have hsegfix : s.segments.map
        (fun seg => { seg with
          duration_minutes := max 0 ((pyRound seg.duration_minutes : ℚ)) }) =
        s.segments := by
      have hcongr : s.segments.map
          (fun seg => { seg with
            duration_minutes := max 0 ((pyRound seg.duration_minutes : ℚ)) }) =
          s.segments.map id := by
        apply List.map_congr_left
        intro seg hseg
        have hfix := pyRound_nat_fix seg.duration_minutes (hsegs seg hseg)
        apply Segment.ext <;> simp [hfix]
      rw [hcongr, List.map_id]
    apply Session.ext <;> simp [trim_volume, mul_one, hsegfix, hdfix]
  exact ⟨hone, by rw [hone]; exact hone⟩

/-- Claim C9 witness: instantiation of the amended claim at the concrete
session sC9, whose durations are the integer 10. -/
theorem trim_idempotent_amended_witness :
    trim_volume sC9 1 = sC9 ∧
    trim_volume (trim_volume sC9 1) 1 = trim_volume sC9 1 :=
  trim_idempotent_amended sC9 ⟨10, by norm_num [sC9]⟩
    (by
      intro seg hseg
      simp only [sC9, List.mem_singleton] at hseg
      subst hseg
      exact ⟨10, by norm_num⟩)

theorem segmentSum_rest_day (day : MicrocycleDayContext) (mcc : MacrocycleContext)
    (z : HRZones) :
    segmentSum (rest_day day mcc z).segments = (rest_day day mcc z).duration_minutes := by
  simp [rest_day, segmentSum]

theorem segmentSum_recovery_run (day : MicrocycleDayContext) (mcc : MacrocycleContext)
    (z : HRZones) :
    segmentSum (recovery_run day mcc z).segments =
      (recovery_run day mcc z).duration_minutes := by
  simp [recovery_run, segmentSum]

theorem segmentSum_long_run (day : MicrocycleDayContext) (mcc : MacrocycleContext)
    (z : HRZones) :
    segmentSum (long_run day mcc z).segments = (long_run day mcc z).duration_minutes := by
  simp [long_run, segmentSum]
  ring

theorem segmentSum_threshold_run (day : MicrocycleDayContext) (mcc : MacrocycleContext)
    (z : HRZones) :
    segmentSum (threshold_run day mcc z).segments =
      (threshold_run day mcc z).duration_minutes := by
  simp only [threshold_run, segmentSum]
  split_ifs with h
  · norm_num [show List.range 2 = [0, 1] from rfl, show List.range 1 = [0] from rfl,
      interleaveReps]
    ring
  · norm_num [show List.range 3 = [0, 1, 2] from rfl, show List.range 2 = [0, 1] from rfl,
      interleaveReps]

theorem segmentSum_vo2_intervals (day : MicrocycleDayContext) (mcc : MacrocycleContext)
    (z : HRZones) :
    segmentSum (vo2_intervals day mcc z).segments =
      (vo2_intervals day mcc z).duration_minutes := by
  simp only [vo2_intervals, segmentSum]
  split_ifs with h
  · norm_num [show List.range 4 = [0, 1, 2, 3] from rfl,
      show List.range 3 = [0, 1, 2] from rfl, interleaveReps]
  · norm_num [show List.range 5 = [0, 1, 2, 3, 4] from rfl,
      show List.range 4 = [0, 1, 2, 3] from rfl, interleaveReps]

theorem segmentSum_double_threshold (day : MicrocycleDayContext)
    (mcc : MacrocycleContext) (z : HRZones) :
    segmentSum (double_threshold day mcc z).segments =
      (double_threshold day mcc z).duration_minutes := by
  simp [double_threshold, segmentSum]
  ring

/-- Claim C2 (amended): for every session as produced by the template
builders (before the readiness and availability trims), the sum of the
segment durations equals the session duration; the later trim steps round the
total and each segment independently and can break the exact equality. -/
theorem builder_segment_sum_invariant (template : String)
    (day : MicrocycleDayContext) (mcc : MacrocycleContext) (z : HRZones) :
    segmentSum (builtSession template day mcc z).segments =
      (builtSession template day mcc z).duration_minutes := by
  by_cases h1 : template = "Rest"
  · simpa [builtSession, h1] using segmentSum_rest_day day mcc z
  · by_cases h2 : template = "Recovery"
    · simpa [builtSession, h1, h2] using segmentSum_recovery_run day mcc z
    · by_cases h3 : template = "Long Run"
      · simpa [builtSession, h1, h2, h3] using segmentSum_long_run day mcc z
      · by_cases h4 : template = "Threshold"
        · simpa [builtSession, h1, h2, h3, h4] using segmentSum_threshold_run day mcc z
        · by_cases h5 : template = "VO2_Intervals"
          · simpa [builtSession, h1, h2, h3, h4, h5] using segmentSum_vo2_intervals day mcc z
          · by_cases h6 : template = "Double_Threshold"
            · simpa [builtSession, h1, h2, h3, h4, h5, h6] using
                segmentSum_double_threshold day mcc z
            · simpa [builtSession, h1, h2, h3, h4, h5, h6] using
                segmentSum_recovery_run day mcc z

def zTriv : HRZones := ⟨(0, 0), (0, 0), (0, 0), (0, 0), (0, 0)⟩

def dayC2 : MicrocycleDayContext :=
  { day_index := 1, day_name := "Tue", template := "Threshold",
    availability_minutes := 200,
    readiness_inputs := { sleep_hours := 8, sleep_quality := 7, soreness := 10,
                          stress := 3, mental_energy := 5 } }

/-- The threshold session built for dayC2 (availability 200, no internal
scaling) lasts 61 minutes. -/
theorem threshold_dayC2_duration :
    (threshold_run dayC2 mccDemo zTriv).duration_minutes = 61 := by
  simp [threshold_run, dayC2]
  norm_num

/-- The threshold session built for dayC2 has segment durations
15, 10, 3, 10, 3, 10, 10. -/
theorem threshold_dayC2_durations :
    (threshold_run dayC2 mccDemo zTriv).segments.map Segment.duration_minutes =
      [15, 10, 3, 10, 3, 10, 10] := by
  simp [threshold_run, dayC2, mccDemo, zTriv]
  norm_num [show List.range 3 = [0, 1, 2] from rfl, show List.range 2 = [0, 1] from rfl,
    interleaveReps]

/-- Claim C2 counterexample: with moderate readiness, the 61-minute threshold
session is trimmed by 0.85; the reported duration becomes round(51.85) = 52
while the independently rounded segments sum to 13+8+3+8+3+8+8 = 51, so the
final session violates the segment-sum invariant. -/
theorem session_sum_counterexample :
    (build_training_session "Threshold" dayC2 mccDemo zTriv
      "moderate").1.duration_minutes = 52 ∧
    segmentSum (build_training_session "Threshold" dayC2 mccDemo zTriv
      "moderate").1.segments = 51 := by
  have hb : builtSession "Threshold" dayC2 mccDemo zTriv =
      { threshold_run dayC2 mccDemo zTriv with template := "Threshold" } := rfl
  have hcond : True ∧
      ¬(("Threshold" : String) = "Rest" ∨ ("Threshold" : String) = "Recovery") :=
    ⟨trivial, by decide⟩
  have hpdur : (preAvailSession "Threshold" dayC2 mccDemo zTriv
      "moderate").1.duration_minutes = 52 := by
    simp only [preAvailSession, hb]
    rw [if_pos hcond]
    show (trim_volume { threshold_run dayC2 mccDemo zTriv with
      template := "Threshold" } (85/100)).duration_minutes = 52
    rw [trim_volume_duration]
    rw [show ({ threshold_run dayC2 mccDemo zTriv with
      template := "Threshold" } : Session).duration_minutes =
      (threshold_run dayC2 mccDemo zTriv).duration_minutes from rfl,
      threshold_dayC2_duration]
    norm_num [pyRound, ratFloor, max_def]
  have hpsum : segmentSum (preAvailSession "Threshold" dayC2 mccDemo zTriv
      "moderate").1.segments = 51 := by
    simp only [preAvailSession, hb]
    rw [if_pos hcond]
    show segmentSum (trim_volume { threshold_run dayC2 mccDemo zTriv with
      template := "Threshold" } (85/100)).segments = 51
    rw [trim_volume_segmentSum]
    rw [show ({ threshold_run dayC2 mccDemo zTriv with
      template := "Threshold" } : Session).segments =
      (threshold_run dayC2 mccDemo zTriv).segments from rfl,
      threshold_dayC2_durations]
    norm_num [pyRound, ratFloor, max_def]
  have hno : ¬ (dayC2.availability_minutes ≠ 0 ∧
      (dayC2.availability_minutes : ℚ) <
        (preAvailSession "Threshold" dayC2 mccDemo zTriv
          "moderate").1.duration_minutes) := by
    rintro ⟨_, hlt⟩
    rw [hpdur] at hlt
    norm_num [dayC2] at hlt
  constructor
  · simp only [build_training_session]
    rw [if_neg hno]
    exact hpdur
  · simp only [build_training_session]
    rw [if_neg hno]
    exact hpsum

/-- Claim C3: whenever the availability is positive, the session returned by
`_build_training_session` fits within it, and when the pre-trim duration
exceeds availability, the proportional trim makes the duration exactly the
availability. -/
theorem availability_cap (template : String) (day : MicrocycleDayContext)
    (mcc : MacrocycleContext) (z : HRZones) (tier : String)
    (hav : 0 < day.availability_minutes) :
    (build_training_session template day mcc z tier).1.duration_minutes ≤
      (day.availability_minutes : ℚ) ∧
    ((day.availability_minutes : ℚ) <
        (preAvailSession template day mcc z tier).1.duration_minutes →
      (build_training_session template day mcc z tier).1.duration_minutes =
        (day.availability_minutes : ℚ)) := by
  have h1le : (1 : ℚ) ≤ (day.availability_minutes : ℚ) := by
    exact_mod_cast hav
  simp only [build_training_session]
  by_cases hc : day.availability_minutes ≠ 0 ∧ (day.availability_minutes : ℚ) <
      (preAvailSession template day mcc z tier).1.duration_minutes
  · rw [if_pos hc]
    obtain ⟨hne, hlt⟩ := hc
    have hd0 : (preAvailSession template day mcc z tier).1.duration_minutes ≠ 0 := by
      intro h0
      rw [h0] at hlt
      linarith
    have hdur : (trim_to_availability (preAvailSession template day mcc z tier).1
        day.availability_minutes).1.duration_minutes = (day.availability_minutes : ℚ) := by
      simp only [trim_to_availability, if_neg hd0]
      rw [trim_volume_duration]
      have hmax : max (preAvailSession template day mcc z tier).1.duration_minutes 1 =
          (preAvailSession template day mcc z tier).1.duration_minutes :=
        max_eq_left (by linarith)
      rw [hmax, mul_comm, div_mul_cancel₀ _ hd0, pyRound_intCast]
      exact max_eq_right (by linarith)
    constructor
    · show (trim_to_availability (preAvailSession template day mcc z tier).1
        day.availability_minutes).1.duration_minutes ≤ (day.availability_minutes : ℚ)
      rw [hdur]
    · intro _
      exact hdur
  · rw [if_neg hc]
    have hne : day.availability_minutes ≠ 0 := by omega
    have hnlt : ¬ ((day.availability_minutes : ℚ) <
        (preAvailSession template day mcc z tier).1.duration_minutes) :=
      fun hlt => hc ⟨hne, hlt⟩
    exact ⟨not_lt.mp hnlt, fun hlt => absurd hlt hnlt⟩

def dayC3 : MicrocycleDayContext :=
  { day_index := 4, day_name := "Sat", template := "Long Run",
    availability_minutes := 50,
    readiness_inputs := { sleep_hours := 8, sleep_quality := 8, soreness := 2,
                          stress := 2, mental_energy := 8 } }

/-- Claim C3 witness: instantiation at a long-run day with 50 available
minutes. -/
theorem availability_cap_witness :
    (build_training_session "Long Run" dayC3 mccDemo zTriv "high").1.duration_minutes ≤
      (dayC3.availability_minutes : ℚ) ∧
    ((dayC3.availability_minutes : ℚ) <
        (preAvailSession "Long Run" dayC3 mccDemo zTriv "high").1.duration_minutes →
      (build_training_session "Long Run" dayC3 mccDemo zTriv "high").1.duration_minutes =
        (dayC3.availability_minutes : ℚ)) :=
  availability_cap "Long Run" dayC3 mccDemo zTriv "high" (by decide)

end Coach
